import Mathlib

/-!
Shallow embedding of the MrPuff point-of-sale core (cart, pricing/discount
engine, checkout persistence payloads, role permissions, discount-creation
validation), translated from the TypeScript source, together with theorems
settling the specification claims. JavaScript numbers are modelled as exact
rationals (ℚ); quantities and stock counts as integers (ℤ).
-/

namespace MrPuff

/-- Discount kind, from the `Discount` interface (`type: 'percentage' | 'fixed'`). -/
inductive DiscountType
  | percentage
  | fixed
deriving DecidableEq, Repr

/-- A stored discount row (fields used by the POS logic). -/
structure Discount where
  id : String
  name : String
  type : DiscountType
  value : ℚ
deriving DecidableEq, Repr

/-- A product row (fields used by the POS logic). -/
structure Product where
  id : String
  name : String
  buying_price : ℚ
  selling_price : ℚ
  stock_quantity : ℤ
deriving DecidableEq, Repr

/-- A cart line: `{ product, quantity, discount }`. -/
structure CartItem where
  product : Product
  quantity : ℤ
  discount : Option Discount
deriving DecidableEq, Repr

/-- Function calculateItemDiscount from the POS page: 0 without a discount,
`originalSubtotal * (value / 100)` for a percentage discount,
`value * quantity` for a fixed discount. -/
def calculateItemDiscount (item : CartItem) : ℚ :=
  match item.discount with
  | none => 0
  | some d =>
    let originalSubtotal := item.product.selling_price * (item.quantity : ℚ)
    match d.type with
    | .percentage => originalSubtotal * (d.value / 100)
    | .fixed => d.value * (item.quantity : ℚ)

/-- Function calculateItemSubtotal: `Math.max(0, originalSubtotal - discountAmount)`. -/
def calculateItemSubtotal (item : CartItem) : ℚ :=
  let originalSubtotal := item.product.selling_price * (item.quantity : ℚ)
  let discountAmount := calculateItemDiscount item
  max 0 (originalSubtotal - discountAmount)

/-- Result record of `calculateTotals`. -/
structure Totals where
  originalSubtotal : ℚ
  totalDiscount : ℚ
  subtotal : ℚ
  totalProfit : ℚ
deriving DecidableEq, Repr

/-- Function calculateTotals: three `reduce`s over the cart and
`subtotal = originalSubtotal - totalDiscount`. -/
def calculateTotals (cart : List CartItem) : Totals :=
  let originalSubtotal :=
    cart.foldl (fun sum item => sum + item.product.selling_price * (item.quantity : ℚ)) 0
  let totalDiscount :=
    cart.foldl (fun sum item => sum + calculateItemDiscount item) 0
  let subtotal := originalSubtotal - totalDiscount
  let totalProfit :=
    cart.foldl (fun sum item =>
      let itemSubtotal := calculateItemSubtotal item
      let itemCost := item.product.buying_price * (item.quantity : ℚ)
      sum + (itemSubtotal - itemCost)) 0
  ⟨originalSubtotal, totalDiscount, subtotal, totalProfit⟩

/-- Function addToCart. The returned `Bool` records whether the
"Not enough stock available" error was surfaced (in which case the cart is
returned unchanged). -/
def addToCart (cart : List CartItem) (product : Product) : List CartItem × Bool :=
  match cart.find? (fun item => item.product.id == product.id) with
  | some existingItem =>
    if product.stock_quantity ≤ existingItem.quantity then
      (cart, true)
    else
      (cart.map (fun item =>
        if item.product.id == product.id then
          { item with quantity := item.quantity + 1 }
        else item), false)
  | none => (cart ++ [{ product := product, quantity := 1, discount := none }], false)

/-- The body of the `map` callback inside `updateQuantity`; the `Bool` records
whether this item surfaced the "Not enough stock available" error. -/
def updateQuantityItem (productId : String) (delta : ℤ) (item : CartItem) : CartItem × Bool :=
  if item.product.id == productId then
    let newQuantity := item.quantity + delta
    if newQuantity ≤ 0 then (item, false)
    else if item.product.stock_quantity < newQuantity then (item, true)
    else ({ item with quantity := newQuantity }, false)
  else (item, false)

/-- Function updateQuantity: `cart.map(...).filter(item => item.quantity > 0)`,
plus the flag saying whether a stock error was surfaced. -/
def updateQuantity (cart : List CartItem) (productId : String) (delta : ℤ) :
    List CartItem × Bool :=
  let mapped := cart.map (updateQuantityItem productId delta)
  ((mapped.map Prod.fst).filter (fun item => decide (0 < item.quantity)),
   mapped.any Prod.snd)

/-- Function removeFromCart. -/
def removeFromCart (cart : List CartItem) (productId : String) : List CartItem :=
  cart.filter (fun item => !(item.product.id == productId))

/-- Function applyDiscount: overwrite the matching line's discount, no validation. -/
def applyDiscount (cart : List CartItem) (productId : String)
    (discount : Option Discount) : List CartItem :=
  cart.map (fun item =>
    if item.product.id == productId then { item with discount := discount } else item)

/-- The virtual product built by `addRefillToCart` (`now` stands for the
`Date.now()` timestamp string): cost 0 and `stock_quantity: 999`. -/
def mkRefillProduct (now : String) (name : String) (price : ℚ) : Product :=
  { id := "refill-" ++ now
    name := name
    buying_price := 0
    selling_price := price
    stock_quantity := 999 }

/-- Function addRefillToCart: append a fresh line of quantity 1 for the virtual product. -/
def addRefillToCart (cart : List CartItem) (now name : String) (price : ℚ) :
    List CartItem :=
  cart ++ [{ product := mkRefillProduct now name price, quantity := 1, discount := none }]

/-- Payment method of a sale. -/
inductive PaymentMethod
  | cash
  | card
deriving DecidableEq, Repr

/-- The sale-header row inserted by `processCheckout`. -/
structure SaleRow where
  total_amount : ℚ
  total_profit : ℚ
  discount_amount : ℚ
  payment_method : PaymentMethod
deriving DecidableEq, Repr

/-- The sale header built in `processCheckout` from `calculateTotals`. -/
def mkSale (cart : List CartItem) (pm : PaymentMethod) : SaleRow :=
  let t := calculateTotals cart
  { total_amount := t.subtotal
    total_profit := t.totalProfit
    discount_amount := t.totalDiscount
    payment_method := pm }

/-- One `sale_items` row as built in `processCheckout`. -/
structure SaleItemRow where
  product_id : Option String
  product_name : String
  quantity : ℤ
  unit_price : ℚ
  buying_price : ℚ
  subtotal : ℚ
  profit : ℚ
  discount_id : Option String
  discount_type : Option DiscountType
  discount_value : Option ℚ
  discount_amount : ℚ
  original_subtotal : ℚ
deriving DecidableEq, Repr

/-- JavaScript `s.startsWith(pre)`, modelled on the character lists of the
two strings. -/
def strStartsWith (s pre : String) : Bool :=
  pre.data.isPrefixOf s.data

/-- The `saleItems` mapping of `processCheckout`: snapshot each line; a refill
line (product id starting with "refill-") snapshots `product_id = null`. -/
def mkSaleItem (item : CartItem) : SaleItemRow :=
  let originalItemSubtotal := item.product.selling_price * (item.quantity : ℚ)
  let discountAmount := calculateItemDiscount item
  let finalSubtotal := calculateItemSubtotal item
  let profit := finalSubtotal - item.product.buying_price * (item.quantity : ℚ)
  let isRefill := strStartsWith item.product.id "refill-"
  { product_id := if isRefill then none else some item.product.id
    product_name := item.product.name
    quantity := item.quantity
    unit_price := item.product.selling_price
    buying_price := item.product.buying_price
    subtotal := finalSubtotal
    profit := profit
    discount_id := item.discount.map Discount.id
    discount_type := item.discount.map Discount.type
    discount_value := item.discount.map Discount.value
    discount_amount := discountAmount
    original_subtotal := originalItemSubtotal }

/-- All `sale_items` rows of a checkout. -/
def saleItems (cart : List CartItem) : List SaleItemRow :=
  cart.map mkSaleItem

/-- One stock write of the stock-decrement loop of `processCheckout`. -/
structure StockUpdate where
  product_id : String
  stock_quantity : ℤ
deriving DecidableEq, Repr

/-- The stock-decrement loop of `processCheckout`: refill lines are skipped
(`continue`), every other line writes `stock_quantity - quantity` for its
product. -/
def stockUpdates (cart : List CartItem) : List StockUpdate :=
  (cart.filter (fun item => !(strStartsWith item.product.id "refill-"))).map
    (fun item =>
      { product_id := item.product.id
        stock_quantity := item.product.stock_quantity - item.quantity })

/-- Derived value `changeAmount = cashReceivedAmount - subtotal`. -/
def changeAmount (cashReceivedAmount subtotal : ℚ) : ℚ :=
  cashReceivedAmount - subtotal

/-- Derived value `isValidCashPayment = paymentMethod === 'card' || cashReceivedAmount >= subtotal`. -/
def isValidCashPayment (pm : PaymentMethod) (cashReceivedAmount subtotal : ℚ) : Bool :=
  pm == PaymentMethod.card || decide (subtotal ≤ cashReceivedAmount)

/-- Outcome of `handleCashCheckout`. -/
inductive CashCheckoutResult
  | insufficient
  | proceed (cashAmount change : ℚ)
deriving DecidableEq, Repr

/-- Function handleCashCheckout: reject ("Insufficient cash received") when
`cashReceivedAmount < subtotal`, otherwise call
`processCheckout(cashReceivedAmount, changeAmount)`. -/
def handleCashCheckout (cashReceivedAmount subtotal : ℚ) : CashCheckoutResult :=
  if cashReceivedAmount < subtotal then .insufficient
  else .proceed cashReceivedAmount (changeAmount cashReceivedAmount subtotal)

/-- Outcome of `handleInitiateCheckout`. -/
inductive InitiateResult
  | emptyCartError
  | notLoggedInError
  | awaitTender
  | commit
deriving DecidableEq, Repr

/-- Function handleInitiateCheckout: empty-cart and auth guards, then cash opens the
tender dialog while card calls `processCheckout()` directly. -/
def handleInitiateCheckout (cart : List CartItem) (loggedIn : Bool)
    (pm : PaymentMethod) : InitiateResult :=
  if cart.isEmpty then .emptyCartError
  else if !loggedIn then .notLoggedInError
  else match pm with
    | .cash => .awaitTender
    | .card => .commit

/-- Staff role. -/
inductive AppRole
  | super_admin
  | manager
  | cashier
deriving DecidableEq, Repr

/-- The capability record of `ROLE_PERMISSIONS`. -/
structure RolePermissions where
  canManageUsers : Bool
  canViewBuyingPrice : Bool
  canViewProfit : Bool
  canManageProducts : Bool
  canViewReports : Bool
  canOverrideTransactions : Bool
  canAccessSettings : Bool
  canViewActivityLogs : Bool
deriving DecidableEq, Repr

/-- The `ROLE_PERMISSIONS` table from `Inventory.tsx`. -/
def ROLE_PERMISSIONS : AppRole → RolePermissions
  | .super_admin =>
    { canManageUsers := true
      canViewBuyingPrice := true
      canViewProfit := true
      canManageProducts := true
      canViewReports := true
      canOverrideTransactions := true
      canAccessSettings := true
      canViewActivityLogs := true }
  | .manager =>
    { canManageUsers := false
      canViewBuyingPrice := true
      canViewProfit := true
      canManageProducts := true
      canViewReports := true
      canOverrideTransactions := false
      canAccessSettings := false
      canViewActivityLogs := false }
  | .cashier =>
    { canManageUsers := false
      canViewBuyingPrice := false
      canViewProfit := false
      canManageProducts := false
      canViewReports := false
      canOverrideTransactions := false
      canAccessSettings := false
      canViewActivityLogs := false }

/-- Function getRolePermissions. -/
def getRolePermissions (role : AppRole) : RolePermissions :=
  ROLE_PERMISSIONS role

/-- Outcome of the `handleSave` validation in `Discounts.tsx`. `parseFloat`
of the value field is modelled as `Option ℚ` (`none` = NaN). -/
inductive SaveResult
  | nameError
  | valueError
  | percentError
  | save (name : String) (type : DiscountType) (value : ℚ)
deriving DecidableEq, Repr

/-- Whether the outcome persists anything (reaches the insert/update call). -/
def SaveResult.persists : SaveResult → Bool
  | .save _ _ _ => true
  | _ => false

/-- The validation prefix of `handleSave` in `Discounts.tsx`: empty name,
`isNaN(numValue) || numValue <= 0`, then `percentage && numValue > 100`;
only a passing input reaches the persistence call. -/
def handleSaveValidate (name : String) (type : DiscountType)
    (numValue : Option ℚ) : SaveResult :=
  if name.trim == "" then .nameError
  else match numValue with
    | none => .valueError
    | some v =>
      if v ≤ 0 then .valueError
      else if type == .percentage && decide (100 < v) then .percentError
      else .save name.trim type v

/-- Example cart for the negative-net analysis: one line of selling price 5,
quantity 1, with a fixed discount of 8 (the discount exceeds the line gross). -/
def exNegCart : List CartItem :=
  [{ product :=
      { id := "p1", name := "A", buying_price := 0, selling_price := 5, stock_quantity := 10 }
     quantity := 1
     discount := some { id := "d1", name := "Big", type := DiscountType.fixed, value := 8 } }]

/-- Folding addition of `f x` over a list starting from `a` gives `a` plus the
sum of the mapped list. -/
theorem foldl_add_map_sum {α : Type} (f : α → ℚ) (l : List α) (a : ℚ) :
    l.foldl (fun sum x => sum + f x) a = a + (l.map f).sum := by
  induction l generalizing a with
  | nil => simp
  | cons x xs ih => simp [ih, add_assoc]

/-- C1: for every cart, `calculateTotals` returns
`originalSubtotal = Σ sellingPrice * quantity` over the lines,
`totalDiscount = Σ` per-line discount, and the cart net satisfies
`subtotal = originalSubtotal - totalDiscount` exactly. -/
theorem calculateTotals_net_eq_gross_sub_discount (cart : List CartItem) :
    (calculateTotals cart).originalSubtotal
        = (cart.map (fun item => item.product.selling_price * (item.quantity : ℚ))).sum
    ∧ (calculateTotals cart).totalDiscount = (cart.map calculateItemDiscount).sum
    ∧ (calculateTotals cart).subtotal
        = (calculateTotals cart).originalSubtotal - (calculateTotals cart).totalDiscount := by
  refine ⟨?_, ?_, ?_⟩ <;>
    simp [calculateTotals, foldl_add_map_sum]

/-- C2: per-line discount is 0 with no discount, `gross * (value/100)` for a
percentage discount, `value * quantity` for a fixed discount, and the line net
is `max 0 (gross - discount)`, hence never negative. -/
theorem line_discount_and_net_spec (item : CartItem) :
    (item.discount = none → calculateItemDiscount item = 0)
    ∧ (∀ d : Discount, item.discount = some d → d.type = DiscountType.percentage →
        calculateItemDiscount item
          = item.product.selling_price * (item.quantity : ℚ) * (d.value / 100))
    ∧ (∀ d : Discount, item.discount = some d → d.type = DiscountType.fixed →
        calculateItemDiscount item = d.value * (item.quantity : ℚ))
    ∧ calculateItemSubtotal item
        = max 0 (item.product.selling_price * (item.quantity : ℚ) - calculateItemDiscount item)
    ∧ 0 ≤ calculateItemSubtotal item := by
  refine ⟨?_, ?_, ?_, rfl, le_max_left 0 _⟩
  · intro h
    simp [calculateItemDiscount, h]
  · intro d hd ht
    simp [calculateItemDiscount, hd, ht]
  · intro d hd ht
    simp [calculateItemDiscount, hd, ht]

/-- Witness for C2 at a concrete line: price 100, quantity 1, 10% discount. -/
theorem line_discount_and_net_spec_witness :
    calculateItemDiscount
        ⟨⟨"p1", "A", 50, 100, 10⟩, 1, some ⟨"d1", "Ten", DiscountType.percentage, 10⟩⟩
      = 10 := by
  have h := (line_discount_and_net_spec
      ⟨⟨"p1", "A", 50, 100, 10⟩, 1, some ⟨"d1", "Ten", DiscountType.percentage, 10⟩⟩).2.1
      ⟨"d1", "Ten", DiscountType.percentage, 10⟩ rfl rfl
  rw [h]
  norm_num

/-- C8: the role→capability table matches §4.1 exhaustively for all three
roles and all eight capabilities. -/
theorem getRolePermissions_matches_table :
    (getRolePermissions .super_admin).canManageUsers = true
    ∧ (getRolePermissions .super_admin).canViewBuyingPrice = true
    ∧ (getRolePermissions .super_admin).canViewProfit = true
    ∧ (getRolePermissions .super_admin).canManageProducts = true
    ∧ (getRolePermissions .super_admin).canViewReports = true
    ∧ (getRolePermissions .super_admin).canOverrideTransactions = true
    ∧ (getRolePermissions .super_admin).canAccessSettings = true
    ∧ (getRolePermissions .super_admin).canViewActivityLogs = true
    ∧ (getRolePermissions .manager).canManageUsers = false
    ∧ (getRolePermissions .manager).canViewBuyingPrice = true
    ∧ (getRolePermissions .manager).canViewProfit = true
    ∧ (getRolePermissions .manager).canManageProducts = true
    ∧ (getRolePermissions .manager).canViewReports = true
    ∧ (getRolePermissions .manager).canOverrideTransactions = false
    ∧ (getRolePermissions .manager).canAccessSettings = false
    ∧ (getRolePermissions .manager).canViewActivityLogs = false
    ∧ (getRolePermissions .cashier).canManageUsers = false
    ∧ (getRolePermissions .cashier).canViewBuyingPrice = false
    ∧ (getRolePermissions .cashier).canViewProfit = false
    ∧ (getRolePermissions .cashier).canManageProducts = false
    ∧ (getRolePermissions .cashier).canViewReports = false
    ∧ (getRolePermissions .cashier).canOverrideTransactions = false
    ∧ (getRolePermissions .cashier).canAccessSettings = false
    ∧ (getRolePermissions .cashier).canViewActivityLogs = false := by
  decide

/-- Any-of-second-components over a list paired with a Boolean flag function
equals any of the flag function itself. -/
theorem any_snd_map_pair (l : List CartItem) (g : CartItem → Bool) :
    (l.map (fun item => (item, g item))).any Prod.snd = l.any g := by
  induction l with
  | nil => rfl
  | cons x xs ih => simp [List.any_cons, ih]

/-- Counterexample to C3: a line at quantity 1, adjusted by -1 (resulting
quantity 0 ≤ 0), is kept unchanged by `updateQuantity` — the map branch
returns the old item, so the trailing `quantity > 0` filter never fires —
whereas `removeFromCart` would delete it. -/
theorem setQuantity_nonpositive_not_removed :
    updateQuantity [⟨⟨"p1", "A", 1, 2, 5⟩, 1, none⟩] "p1" (-1)
        = ([⟨⟨"p1", "A", 1, 2, 5⟩, 1, none⟩], false)
    ∧ (updateQuantity [⟨⟨"p1", "A", 1, 2, 5⟩, 1, none⟩] "p1" (-1)).1
        ≠ removeFromCart [⟨⟨"p1", "A", 1, 2, 5⟩, 1, none⟩] "p1" := by
  decide

/-- C3 (amended): when the resulting quantity would be ≤ 0, `updateQuantity`
leaves the cart unchanged (the line keeps its previous quantity; it is not
removed) and surfaces no error. -/
theorem setQuantity_nonpositive_is_noop (cart : List CartItem) (productId : String)
    (delta : ℤ)
    (hpos : ∀ item ∈ cart, 0 < item.quantity)
    (hle : ∀ item ∈ cart, item.product.id = productId → item.quantity + delta ≤ 0) :
    updateQuantity cart productId delta = (cart, false) := by
  have hitem : ∀ item ∈ cart, updateQuantityItem productId delta item = (item, false) := by
    intro item hmem
    unfold updateQuantityItem
    by_cases h : (item.product.id == productId) = true
    · have hq : item.quantity + delta ≤ 0 := hle item hmem (by simpa using h)
      simp [h, hq]
    · simp [h]
  have hmap : cart.map (updateQuantityItem productId delta)
      = cart.map (fun item => (item, false)) := List.map_congr_left hitem
  unfold updateQuantity
  rw [hmap]
  simp only [List.map_map, Prod.mk.injEq]
  have hfst : (Prod.fst ∘ fun item : CartItem => (item, false)) = id := rfl
  rw [hfst, List.map_id, any_snd_map_pair cart (fun _ => false)]
  refine ⟨List.filter_eq_self.mpr fun item hmem => by simpa using hpos item hmem, by simp⟩

/-- Witness for the amended C3 at a concrete cart: quantity 2, delta -3. -/
theorem setQuantity_nonpositive_is_noop_witness :
    updateQuantity [⟨⟨"p1", "A", 1, 2, 5⟩, 2, none⟩] "p1" (-3)
        = ([⟨⟨"p1", "A", 1, 2, 5⟩, 2, none⟩], false) :=
  setQuantity_nonpositive_is_noop [⟨⟨"p1", "A", 1, 2, 5⟩, 2, none⟩] "p1" (-3)
    (by decide) (by decide)

/-- C4: a non-refill operation that would push a line past the product's
stock is rejected with the stock error and the cart is unchanged: `addToCart`
on an already-present product whose quantity is at/above stock, and
`updateQuantity` whose resulting quantity exceeds stock. -/
theorem stock_exceeding_ops_rejected (cart : List CartItem) (product : Product)
    (productId : String) (delta : ℤ)
    (hpos : ∀ item ∈ cart, 0 < item.quantity) :
    (∀ e : CartItem, cart.find? (fun item => item.product.id == product.id) = some e →
        product.stock_quantity ≤ e.quantity → addToCart cart product = (cart, true))
    ∧ ((∃ item ∈ cart, item.product.id = productId) →
      (∀ item ∈ cart, item.product.id = productId →
          0 < item.quantity + delta ∧ item.product.stock_quantity < item.quantity + delta) →
      updateQuantity cart productId delta = (cart, true)) := by
  constructor
  · intro e hfind hle
    unfold addToCart
    rw [hfind]
    simp [hle]
  · rintro ⟨w, hw, hwid⟩ hstock
    have hitem : ∀ item ∈ cart, updateQuantityItem productId delta item
        = (item, item.product.id == productId) := by
      intro item hmem
      unfold updateQuantityItem
      by_cases h : (item.product.id == productId) = true
      · obtain ⟨h1, h2⟩ := hstock item hmem (by simpa using h)
        simp [h, not_le.mpr h1, h2]
      · simp [h]
    have hmap : cart.map (updateQuantityItem productId delta)
        = cart.map (fun item => (item, item.product.id == productId)) :=
      List.map_congr_left hitem
    unfold updateQuantity
    rw [hmap]
    simp only [List.map_map, Prod.mk.injEq]
    have hfst : (Prod.fst ∘ fun item : CartItem => (item, item.product.id == productId)) = id :=
      rfl
    rw [hfst, List.map_id,
      any_snd_map_pair cart (fun item => item.product.id == productId)]
    refine ⟨List.filter_eq_self.mpr fun item hmem => by simpa using hpos item hmem, ?_⟩
    exact List.any_eq_true.mpr ⟨w, hw, by simpa using hwid⟩

/-- Witness for C4 at a concrete cart: one line of quantity 3 on a product
with stock 3; both a further `addToCart` and `updateQuantity` by +1 reject. -/
theorem stock_exceeding_ops_rejected_witness :
    addToCart [⟨⟨"p1", "A", 1, 2, 3⟩, 3, none⟩] ⟨"p1", "A", 1, 2, 3⟩
        = ([⟨⟨"p1", "A", 1, 2, 3⟩, 3, none⟩], true)
    ∧ updateQuantity [⟨⟨"p1", "A", 1, 2, 3⟩, 3, none⟩] "p1" 1
        = ([⟨⟨"p1", "A", 1, 2, 3⟩, 3, none⟩], true) := by
  have h := stock_exceeding_ops_rejected [⟨⟨"p1", "A", 1, 2, 3⟩, 3, none⟩]
    ⟨"p1", "A", 1, 2, 3⟩ "p1" 1 (by decide)
  exact ⟨h.1 ⟨⟨"p1", "A", 1, 2, 3⟩, 3, none⟩ (by decide) (by decide),
         h.2 ⟨⟨⟨"p1", "A", 1, 2, 3⟩, 3, none⟩, by simp, rfl⟩ (by decide)⟩

/-- Counterexample to C5: a refill line carries the synthetic stock 999, not
unlimited stock, so raising its quantity from 999 to 1000 is rejected with
the stock error and the quantity stays 999. -/
theorem refill_stock_ceiling_at_999 :
    updateQuantity [⟨mkRefillProduct "123" "R" 10, 999, none⟩] "refill-123" 1
        = ([⟨mkRefillProduct "123" "R" 10, 999, none⟩], true) := by
  decide

/-- C5 (amended): a refill line's quantity can be raised to any value up to
the synthetic stock of 999 without an insufficient-stock rejection; beyond
999 the stock ceiling applies. -/
theorem refill_quantity_raise_up_to_999 (now name : String) (price : ℚ)
    (d : Option Discount) (q delta : ℤ)
    (h1 : 0 < q + delta) (h2 : q + delta ≤ 999) :
    updateQuantity [⟨mkRefillProduct now name price, q, d⟩] ("refill-" ++ now) delta
        = ([⟨mkRefillProduct now name price, q + delta, d⟩], false) := by
  unfold updateQuantity updateQuantityItem mkRefillProduct
  simp [not_le.mpr h1, not_lt.mpr h2, h1]

/-- Witness for the amended C5: raising a fresh refill line from 1 by 998
succeeds with no error. -/
theorem refill_quantity_raise_up_to_999_witness :
    updateQuantity [⟨mkRefillProduct "123" "R" 10, 1, none⟩] ("refill-" ++ "123") 998
        = ([⟨mkRefillProduct "123" "R" 10, 1 + 998, none⟩], false) :=
  refill_quantity_raise_up_to_999 "123" "R" 10 none 1 998 (by decide) (by decide)

/-- C6: a refill line (product id starting with "refill-") is persisted with
`product_id = null`, and the stock-decrement step writes updates exactly for
the non-refill lines, each decrementing the backing product's stock by the
line quantity. -/
theorem refill_saleitem_null_and_no_stock_write (cart : List CartItem) :
    (∀ item ∈ cart, strStartsWith item.product.id "refill-" = true →
        (mkSaleItem item).product_id = none)
    ∧ (∀ u : StockUpdate, u ∈ stockUpdates cart ↔
        ∃ item ∈ cart, strStartsWith item.product.id "refill-" = false
          ∧ u = ⟨item.product.id, item.product.stock_quantity - item.quantity⟩) := by
  constructor
  · intro item hmem h
    simp [mkSaleItem, h]
  · intro u
    constructor
    · intro hu
      obtain ⟨item, hitem, rfl⟩ := List.mem_map.mp hu
      obtain ⟨hmem, href⟩ := List.mem_filter.mp hitem
      exact ⟨item, hmem, by simpa using href, rfl⟩
    · rintro ⟨item, hmem, href, rfl⟩
      exact List.mem_map.mpr
        ⟨item, List.mem_filter.mpr ⟨hmem, by simpa using href⟩, rfl⟩

/-- Witness for C6: a fresh refill line snapshots a null product id, and the
cart consisting of that line alone produces no stock update. -/
theorem refill_saleitem_null_and_no_stock_write_witness :
    (mkSaleItem ⟨mkRefillProduct "7" "R" 10, 1, none⟩).product_id = none
    ∧ ¬ (⟨"refill-7", 998⟩ : StockUpdate)
        ∈ stockUpdates [⟨mkRefillProduct "7" "R" 10, 1, none⟩] := by
  have h := refill_saleitem_null_and_no_stock_write [⟨mkRefillProduct "7" "R" 10, 1, none⟩]
  refine ⟨h.1 ⟨mkRefillProduct "7" "R" 10, 1, none⟩ (by simp) (by decide), fun hu => ?_⟩
  obtain ⟨item, hmem, href, _⟩ := (h.2 ⟨"refill-7", 998⟩).mp hu
  rw [List.mem_singleton.mp hmem] at href
  exact absurd href (by decide)

/-- C7: the cash tender guard permits commit exactly when the tendered amount
covers the cart net: below it, the insufficient rejection is surfaced and no
checkout runs; at or above it, checkout proceeds with change
`tendered - subtotal ≥ 0`; card payment goes straight to committing. -/
theorem cash_tender_guard (t s : ℚ) :
    (s ≤ t → handleCashCheckout t s = CashCheckoutResult.proceed t (t - s) ∧ 0 ≤ t - s)
    ∧ (t < s → handleCashCheckout t s = CashCheckoutResult.insufficient)
    ∧ (∀ cart : List CartItem, cart ≠ [] →
        handleInitiateCheckout cart true PaymentMethod.card = InitiateResult.commit) := by
  refine ⟨fun h => ⟨?_, by linarith⟩, fun h => ?_, fun cart hc => ?_⟩
  · simp [handleCashCheckout, changeAmount, not_lt.mpr h]
  · simp [handleCashCheckout, h]
  · simp [handleInitiateCheckout, List.isEmpty_iff, hc]

/-- Witness for C7: tendering 5 against a net of 3 proceeds with change
5 - 3; tendering 1 against 3 is rejected as insufficient. -/
theorem cash_tender_guard_witness :
    handleCashCheckout 5 3 = CashCheckoutResult.proceed 5 (5 - 3)
    ∧ handleCashCheckout 1 3 = CashCheckoutResult.insufficient :=
  ⟨((cash_tender_guard 5 3).1 (by norm_num)).1,
   (cash_tender_guard 1 3).2.1 (by norm_num)⟩

/-- C9: creating a discount with value ≤ 0 (either kind), a non-numeric
value, or a percentage value > 100 is rejected before anything is persisted,
while applying a stored discount to a cart line stores it unconditionally —
no value re-validation at apply time. -/
theorem discount_validation_creation_only (name : String) (t : DiscountType) (v : ℚ)
    (cart : List CartItem) (productId : String) (d : Discount) :
    (v ≤ 0 → (handleSaveValidate name t (some v)).persists = false)
    ∧ (handleSaveValidate name t none).persists = false
    ∧ (t = DiscountType.percentage → 100 < v →
        (handleSaveValidate name t (some v)).persists = false)
    ∧ applyDiscount cart productId (some d)
        = cart.map (fun item =>
            if item.product.id == productId then { item with discount := some d } else item) := by
  refine ⟨fun hv => ?_, ?_, fun ht hv => ?_, rfl⟩
  · by_cases h : (name.trim == "") = true <;>
      simp [handleSaveValidate, h, hv, SaveResult.persists]
  · by_cases h : (name.trim == "") = true <;>
      simp [handleSaveValidate, h, SaveResult.persists]
  · by_cases h : (name.trim == "") = true <;> by_cases h0 : v ≤ 0 <;>
      simp [handleSaveValidate, h, h0, ht, hv, SaveResult.persists]

/-- Witness for C9: a 150% percentage discount and a fixed discount of -1
are both rejected at creation. -/
theorem discount_validation_creation_only_witness :
    (handleSaveValidate "x" DiscountType.percentage (some 150)).persists = false
    ∧ (handleSaveValidate "x" DiscountType.fixed (some (-1))).persists = false :=
  ⟨(discount_validation_creation_only "x" DiscountType.percentage 150 [] "p"
      ⟨"d", "n", DiscountType.percentage, 150⟩).2.2.1 rfl (by norm_num),
   (discount_validation_creation_only "x" DiscountType.fixed (-1) [] "p"
      ⟨"d", "n", DiscountType.fixed, -1⟩).1 (by norm_num)⟩

/-- C10: the cart net is not floored at 0 — on `exNegCart` (one line of gross
5 with a fixed discount of 8) `calculateTotals` yields subtotal -3, the sale
header persists -3 as `total_amount`, and the cash guard then accepts every
non-negative tendered amount. -/
theorem negative_cart_net_flows_to_sale_and_guard :
    (calculateTotals exNegCart).subtotal = -3
    ∧ (mkSale exNegCart PaymentMethod.cash).total_amount = -3
    ∧ (∀ t : ℚ, 0 ≤ t →
        isValidCashPayment PaymentMethod.cash t (calculateTotals exNegCart).subtotal = true) := by
  have hsub : (calculateTotals exNegCart).subtotal = -3 := by
    simp [calculateTotals, exNegCart, calculateItemDiscount]
    norm_num
  refine ⟨hsub, by simpa [mkSale] using hsub, fun t ht => ?_⟩
  rw [hsub]
  simp only [isValidCashPayment, Bool.or_eq_true, decide_eq_true_eq]
  right
  linarith

/-- Witness for C10: a tendered amount of 0 passes the cash guard against the
negative net. -/
theorem negative_cart_net_flows_to_sale_and_guard_witness :
    isValidCashPayment PaymentMethod.cash 0 (calculateTotals exNegCart).subtotal = true :=
  negative_cart_net_flows_to_sale_and_guard.2.2 0 (by norm_num)

end MrPuff
